import Mathlib

/-!
Shallow embedding of the `fsm` repository: the lathe state machine and its
runtime wrapper (`src/machines/lathe.rs`), the generic controller and worker
loop (`src/machines/shared.rs`), and the mill worker loop
(`src/machines/mill.rs`).

Machine integers: the business-data fields are Rust `u32` / `i32` values, but
the code never performs arithmetic on them — they are only copied from command
parameters or overwritten with zero — so `Nat` / `Int` model them exactly on
the representable range and no modular reduction is needed.
-/

/-- Business data of the lathe (`LatheData` in lathe.rs): fields `revs` and
`feed`, both `u32`. -/
structure LatheData where
  revs : Nat
  feed : Nat
deriving DecidableEq

/-- Default value of `LatheData`: the `#[derive(Default)]` in lathe.rs
zero-initialises both fields. -/
def LatheData.default : LatheData := { revs := 0, feed := 0 }

/-- Commands of the lathe (`LatheCommand` in lathe.rs). -/
inductive LatheCommand where
  | startSpinning (revs : Nat)
  | stopSpinning
  | feed (feed_rate : Nat)
  | stopFeed
  | notaus
  | acknowledge
deriving DecidableEq

/-- Responses of the lathe (`LatheResponse` in lathe.rs): either
`Status{state}` or `InvalidTransition{current_state, attempted_command}`. -/
inductive LatheResponse where
  | status (state : String)
  | invalidTransition (current_state : String) (attempted_command : String)
deriving DecidableEq

/-- The declared lathe states (the four zero-sized marker types `Off`,
`Spinning`, `Feeding`, `Notaus` of lathe.rs, used here as the tag of the
runtime wrapper's active variant). -/
inductive LatheState where
  | off
  | spinning
  | feeding
  | notaus
deriving DecidableEq

/-- Name of a lathe state as the Rust code renders it (the string literals
and `stringify!` outputs in lathe.rs / the fsm! macro). -/
def LatheState.name : LatheState → String
  | .off => "Off"
  | .spinning => "Spinning"
  | .feeding => "Feeding"
  | .notaus => "Notaus"

/-- Rendering of a command by `format!("\x7b:?\x7d", cmd)` with the derived
`Debug` instance of `LatheCommand`: variant name, parameters in parentheses. -/
def LatheCommand.debugFmt : LatheCommand → String
  | .startSpinning revs => "StartSpinning(" ++ toString revs ++ ")"
  | .stopSpinning => "StopSpinning"
  | .feed feed_rate => "Feed(" ++ toString feed_rate ++ ")"
  | .stopFeed => "StopFeed"
  | .notaus => "Notaus"
  | .acknowledge => "Acknowledge"

/-- Transition body `Lathe::<Off>::start_spinning` (lathe.rs lines 67-75):
store the requested revs, keep the rest of the data. -/
def Lathe.start_spinning (d : LatheData) (revs : Nat) : LatheData :=
  { d with revs := revs }

/-- Transition body `Lathe::<Spinning>::feed` (lathe.rs lines 77-85): store
the requested feed rate. -/
def Lathe.feed (d : LatheData) (feed_rate : Nat) : LatheData :=
  { d with feed := feed_rate }

/-- Transition body `Lathe::<Spinning>::off` (lathe.rs lines 86-92): reset
the business data to its default. -/
def Lathe.off (_d : LatheData) : LatheData :=
  LatheData.default

/-- Transition body `Lathe::<Feeding>::stop_feed` (lathe.rs lines 95-104):
zero the feed rate. -/
def Lathe.stop_feed (d : LatheData) : LatheData :=
  { d with feed := 0 }

/-- Transition body `Lathe::<Notaus>::acknowledge` (lathe.rs lines 106-114):
reset the business data to its default. -/
def Lathe.acknowledge (_d : LatheData) : LatheData :=
  LatheData.default

/-- The runtime wrapper `LatheWrapper` (lathe.rs lines 271-277): a tagged
union with one variant per declared state, each variant holding the
exclusively-owned business data (`Lathe<State>` is `PhantomData` plus
`Box<LatheData>`, so the data is all it carries). -/
inductive LatheWrapper where
  | off (data : LatheData)
  | spinning (data : LatheData)
  | feeding (data : LatheData)
  | notaus (data : LatheData)
deriving DecidableEq

/-- Constructor `LatheWrapper::new` (lathe.rs lines 279-283): start in the
`Off` variant with the given data. -/
def LatheWrapper.new (d : LatheData) : LatheWrapper :=
  .off d

/-- Tag of the wrapper's active variant. -/
def LatheWrapper.tag : LatheWrapper → LatheState
  | .off _ => .off
  | .spinning _ => .spinning
  | .feeding _ => .feeding
  | .notaus _ => .notaus

/-- Business data currently held by the wrapper. -/
def LatheWrapper.data : LatheWrapper → LatheData
  | .off d => d
  | .spinning d => d
  | .feeding d => d
  | .notaus d => d

/-- The dispatcher `LatheWrapper::handle_cmd` (lathe.rs lines 286-295)
composed with the four per-state `StateHandler2::handle_cmd` impls
(lathe.rs lines 303-413). Each state's declared commands move to the
declared destination with the declared data mutation; every other command
falls through to the rejection arm, which returns the wrapper unchanged and
an `InvalidTransition` naming the pre-transition state and the attempted
command. The macro-generated `FsmWrapper::handle_cmd` (shared.rs lines
90-97 and 118-141) expands to exactly this shape for its given table. -/
def LatheWrapper.handle_cmd : LatheWrapper → LatheCommand → LatheWrapper × LatheResponse
  | .off d, .startSpinning revs =>
      (.spinning (Lathe.start_spinning d revs), .status "Spinning")
  | .off d, .notaus => (.notaus d, .status "Notaus")
  | .off d, cmd => (.off d, .invalidTransition "Off" cmd.debugFmt)
  | .spinning d, .feed feed_rate =>
      (.feeding (Lathe.feed d feed_rate), .status "Feeding")
  | .spinning d, .stopSpinning => (.off (Lathe.off d), .status "Off")
  | .spinning d, .notaus => (.notaus d, .status "Notaus")
  | .spinning d, cmd => (.spinning d, .invalidTransition "Spinning" cmd.debugFmt)
  | .feeding d, .stopFeed => (.spinning (Lathe.stop_feed d), .status "Spinning")
  | .feeding d, .notaus => (.notaus d, .status "Notaus")
  | .feeding d, cmd => (.feeding d, .invalidTransition "Feeding" cmd.debugFmt)
  | .notaus d, .acknowledge => (.off (Lathe.acknowledge d), .status "Off")
  | .notaus d, cmd => (.notaus d, .invalidTransition "Notaus" cmd.debugFmt)

/-- The transition table read off the match arms of lathe.rs lines 303-413:
`true` exactly for the (state, command) pairs with an explicit arm. -/
def latheDeclaredCmd : LatheState → LatheCommand → Bool
  | .off, .startSpinning _ => true
  | .off, .notaus => true
  | .spinning, .feed _ => true
  | .spinning, .stopSpinning => true
  | .spinning, .notaus => true
  | .feeding, .stopFeed => true
  | .feeding, .notaus => true
  | .notaus, .acknowledge => true
  | _, _ => false

/-- Sequential processing of a command list by the worker, pure part: fold
`handle_cmd` over the commands in order, collecting the responses in the
same order (the body of `MachineThread::run`, shared.rs lines 291-298, with
the channel plumbing stripped). -/
def LatheWrapper.run : LatheWrapper → List LatheCommand → LatheWrapper × List LatheResponse
  | w, [] => (w, [])
  | w, c :: rest =>
      let p := w.handle_cmd c
      let q := p.1.run rest
      (q.1, p.2 :: q.2)

example : (LatheWrapper.new LatheData.default).handle_cmd (LatheCommand.feed 200) =
    (LatheWrapper.off LatheData.default, LatheResponse.invalidTransition "Off" "Feed(200)") := by
  decide

example : ((LatheWrapper.new LatheData.default).run
    [LatheCommand.startSpinning 800, LatheCommand.feed 150]).2 =
    [LatheResponse.status "Spinning", LatheResponse.status "Feeding"] := by
  decide

/-- The worker loop `MachineThread::run` (shared.rs lines 291-298):
`while let Ok(cmd) = cmd_rx.recv()` pulls the submitted commands in FIFO
order (modelled by the list `cmds`; the loop exits when the list is
exhausted and the sender is dropped), processes each with `handle_cmd`,
replaces the held wrapper, and sends the response with
`let _ = response_tx.send(response)` — the send result is discarded, so a
failed send does not leave the loop. The response consumer is modelled by
`alive`, the number of sends it accepts before its receiving end is
dropped: the i-th send succeeds exactly when fewer than `alive` sends have
happened, and once a send fails all later sends fail (mpsc disconnection is
permanent). Returns the final wrapper, the responses actually delivered,
and the commands actually processed. -/
def machineThreadRun {W C R : Type} (handle : W → C → W × R) :
    W → List C → Nat → W × List R × List C
  | w, [], _ => (w, [], [])
  | w, c :: rest, alive =>
      let p := handle w c
      let q := machineThreadRun handle p.1 rest (alive - 1)
      (q.1, if 0 < alive then p.2 :: q.2.1 else q.2.1, c :: q.2.2)

/-- Model of an std `mpsc` channel endpoint as seen by a sender: the queue
of values already sent and not yet received, and whether the receiving end
is still alive. `Sender::send` succeeds (appending to the queue) exactly
when the receiver is alive, and returns the value back inside the error
otherwise — this is the std contract the code relies on. -/
structure MpscChannel (A : Type) where
  queued : List A
  receiverAlive : Bool

/-- Controller method `MachineController::send_command` (shared.rs lines
223-225): the body is exactly `self.cmd_tx.send(cmd)`. The receiver
`cmd_rx` is owned by the worker's `MachineThread`, so it is alive precisely
while the worker has not terminated. -/
def MachineController.send_command {C : Type} (ch : MpscChannel C) (cmd : C) :
    Except C (MpscChannel C) :=
  if ch.receiverAlive then Except.ok { ch with queued := ch.queued ++ [cmd] }
  else Except.error cmd

/-- Controller method `MachineController::check_responses` (shared.rs lines
231-237): `while let Ok(response) = response_rx.try_recv()` pops the
responses currently queued in the response mailbox, front first, pushing
each onto the result vector, and stops at `Empty` — it never blocks. The
argument is the queue of responses pending in the mailbox. -/
def MachineController.check_responses {R : Type} : List R → List R
  | [] => []
  | r :: pending => r :: MachineController.check_responses pending

/-- Business data of the mill (`MillData` in mill.rs): `revs` is `u32`,
`linear_move` is `i32`. -/
structure MillData where
  revs : Nat
  linear_move : Int
deriving DecidableEq

/-- Commands of the mill (`MillCommand` in mill.rs). -/
inductive MillCommand where
  | startSpinning (revs : Nat)
  | stopSpinning
  | move (linear_move : Int)
  | stopMoving
deriving DecidableEq

/-- Responses of the mill (`MillResponse` in mill.rs). -/
inductive MillResponse where
  | status (state : String)
  | invalidTransition (current_state : String) (attempted_command : String)
deriving DecidableEq

/-- The mill's declared states (the `state_machine!` DSL block, mill.rs
lines 34-47). -/
inductive MillState where
  | off
  | spinning
  | moving
deriving DecidableEq

/-- State names as rendered by `MillFSM` (mill.rs lines 72-76). -/
def MillState.name : MillState → String
  | .off => "Off"
  | .spinning => "Spinning"
  | .moving => "Moving"

/-- Rendering of a mill command by `format!("\x7b:?\x7d", cmd)` with the
derived `Debug` instance. -/
def MillCommand.debugFmt : MillCommand → String
  | .startSpinning revs => "StartSpinning(" ++ toString revs ++ ")"
  | .stopSpinning => "StopSpinning"
  | .move linear_move => "Move(" ++ toString linear_move ++ ")"
  | .stopMoving => "StopMoving"

/-- The mill FSM state: the DSL-generated state machine's current state plus
the business data (`MillFSM`, mill.rs lines 57-60). -/
structure MillFSM where
  machineState : MillState
  data : MillData
deriving DecidableEq

/-- Constructor `MillFSM::new` (mill.rs lines 63-68): DSL initial state
`Off`, default data. -/
def MillFSM.new : MillFSM :=
  { machineState := .off, data := { revs := 0, linear_move := 0 } }

/-- Handler `MillFSM::handle_command` (mill.rs lines 71-117): the four
declared (command, state) arms mutate the data and consume the DSL input,
which for these declared transitions always yields `Ok(Some(output))`; any
other pair hits the `_ => None` arm, leaving state and data untouched and
reporting `InvalidTransition` with the pre-transition state name. The Rust
method mutates in place and returns the response; modelled as returning the
new `MillFSM` alongside the response. -/
def MillFSM.handle_command (m : MillFSM) (cmd : MillCommand) : MillFSM × MillResponse :=
  match cmd, m.machineState with
  | .startSpinning revs, .off =>
      ({ machineState := .spinning, data := { m.data with revs := revs } },
       .status "Spinning")
  | .stopSpinning, .spinning =>
      ({ machineState := .off, data := { m.data with revs := 0 } },
       .status "Off")
  | .move linear_move, .spinning =>
      ({ machineState := .moving, data := { m.data with linear_move := linear_move } },
       .status "Moving")
  | .stopMoving, .moving =>
      ({ machineState := .spinning, data := { m.data with linear_move := 0 } },
       .status "Spinning")
  | _, _ => (m, .invalidTransition m.machineState.name cmd.debugFmt)

/-- The mill worker loop (`MillController::new`, mill.rs lines 147-186).
Each iteration first polls the shutdown channel (`shutdownIn` counts the
command-processing iterations until a shutdown signal or disconnection is
observed there; both break the loop), then receives a command (list
exhausted with sender dropped also breaks), processes it, and — unlike
`MachineThread::run` — checks the response send: `if
response_tx.send(response).is_err()` breaks the loop. `alive` is the number
of sends the response consumer accepts, as in `machineThreadRun`. Returns
the final FSM, the responses delivered, and the commands processed. -/
def millThreadRun : MillFSM → List MillCommand → Nat → Nat → MillFSM × List MillResponse × List MillCommand
  | m, _, _, 0 => (m, [], [])
  | m, [], _, _ + 1 => (m, [], [])
  | m, c :: rest, alive, sIn + 1 =>
      let p := m.handle_command c
      if 0 < alive then
        let q := millThreadRun p.1 rest (alive - 1) sIn
        (q.1, p.2 :: q.2.1, c :: q.2.2)
      else
        (p.1, [], [c])

example : (millThreadRun MillFSM.new
    [MillCommand.startSpinning 800, MillCommand.move (-50)] 5 9).2.1 =
    [MillResponse.status "Spinning", MillResponse.status "Moving"] := by
  decide

example : (machineThreadRun LatheWrapper.handle_cmd (LatheWrapper.new LatheData.default)
    [LatheCommand.notaus, LatheCommand.acknowledge] 0).2.2 =
    [LatheCommand.notaus, LatheCommand.acknowledge] := by
  decide

/-- The invariant the lathe transition bodies maintain on the business data,
per active variant: `Off` holds default data, `Spinning` holds zero feed. -/
def latheInv : LatheWrapper → Bool
  | .off d => d.revs == 0 && d.feed == 0
  | .spinning d => d.feed == 0
  | .feeding _ => true
  | .notaus _ => true

/-- Helper: the wrapper's tag is always one of the four declared states. -/
theorem LatheWrapper.tag_declared (w : LatheWrapper) :
    w.tag ∈ [LatheState.off, LatheState.spinning, LatheState.feeding, LatheState.notaus] := by
  cases w <;> simp [LatheWrapper.tag]

/-- Helper: `handle_cmd` preserves `latheInv`. -/
theorem latheInv_preserved (w : LatheWrapper) (c : LatheCommand)
    (h : latheInv w = true) : latheInv (w.handle_cmd c).1 = true := by
  cases w <;> cases c <;>
    simp_all [latheInv, LatheWrapper.handle_cmd, Lathe.start_spinning, Lathe.feed,
      Lathe.off, Lathe.stop_feed, Lathe.acknowledge, LatheData.default]

/-- Helper: `latheInv` is preserved along any fold of `handle_cmd`. -/
theorem latheInv_run (cmds : List LatheCommand) :
    ∀ w : LatheWrapper, latheInv w = true → latheInv ((w.run cmds).1) = true := by
  induction cmds with
  | nil => intro w h; exact h
  | cons c rest ih =>
      intro w h
      simp only [LatheWrapper.run]
      exact ih _ (latheInv_preserved w c h)

/-- Helper: `check_responses` returns exactly the pending queue, in order. -/
theorem check_responses_eq {R : Type} (pending : List R) :
    MachineController.check_responses pending = pending := by
  induction pending with
  | nil => rfl
  | cons r rest ih => simp [MachineController.check_responses, ih]

/-- Helper: when the response consumer stays connected for the whole run
(`alive` equal to the number of commands), the worker loop delivers exactly
the fold's responses, in submission order. -/
theorem machineThreadRun_delivers (cmds : List LatheCommand) :
    ∀ w : LatheWrapper,
      (machineThreadRun LatheWrapper.handle_cmd w cmds cmds.length).2.1 = (w.run cmds).2 := by
  induction cmds with
  | nil => intro w; rfl
  | cons c rest ih =>
      intro w
      simp [machineThreadRun, LatheWrapper.run, Nat.succ_sub_one, ih]

/-- C1: For every wrapper value and every command, `handle_cmd` is a total
function: it returns a unique (wrapper, response) pair — exactly one
Response, never zero or more — and the returned wrapper is tagged with one
of the four declared states. Termination and panic-freedom hold because the
dispatcher and every transition body embed as total functions: the source
contains no unwrap, no index, and no arithmetic that could overflow. -/
theorem lathe_handle_cmd_total (w : LatheWrapper) (cmd : LatheCommand) :
    ∃ p : LatheWrapper × LatheResponse, w.handle_cmd cmd = p ∧
      p.1.tag ∈ [LatheState.off, LatheState.spinning, LatheState.feeding, LatheState.notaus] ∧
      ∀ q : LatheWrapper × LatheResponse, w.handle_cmd cmd = q → q = p :=
  ⟨w.handle_cmd cmd, rfl, LatheWrapper.tag_declared _, fun _ hq => hq.symm⟩

/-- C2: A command with no declared arm for the wrapper's current state
leaves the wrapper (variant and business data) unchanged and yields
`InvalidTransition` with the pre-transition state name and the Debug
rendering of the attempted command. -/
theorem lathe_handle_cmd_undeclared (w : LatheWrapper) (cmd : LatheCommand)
    (h : latheDeclaredCmd w.tag cmd = false) :
    w.handle_cmd cmd = (w, LatheResponse.invalidTransition w.tag.name cmd.debugFmt) := by
  cases w <;> cases cmd <;>
    first
      | rfl
      | exact absurd h (by simp [latheDeclaredCmd, LatheWrapper.tag])

/-- C2 witness: `Feed(200)` in state `Off` with default data is undeclared,
and is rejected as `InvalidTransition{current_state:"Off",
attempted_command:"Feed(200)"}` with the data (feed = 0) unchanged. -/
theorem lathe_handle_cmd_undeclared_witness :
    latheDeclaredCmd (LatheWrapper.off LatheData.default).tag (LatheCommand.feed 200) = false ∧
    (LatheWrapper.off LatheData.default).handle_cmd (LatheCommand.feed 200) =
      (LatheWrapper.off LatheData.default,
        LatheResponse.invalidTransition "Off" "Feed(200)") := by
  refine ⟨by decide, ?_⟩
  have h := lathe_handle_cmd_undeclared (LatheWrapper.off LatheData.default)
    (LatheCommand.feed 200) (by decide)
  exact h.trans (by decide)

/-- C3 counterexample: in state `Notaus` the `Notaus` command has no
declared arm (lathe.rs lines 394-413 only handle `Acknowledge`), so the
response is `InvalidTransition`, not `Status{"Notaus"}` — refuting the
claim for the non-Off state `Notaus`. -/
theorem lathe_notaus_in_notaus_rejected :
    ((LatheWrapper.notaus LatheData.default).handle_cmd LatheCommand.notaus).2 =
      LatheResponse.invalidTransition "Notaus" "Notaus" ∧
    ((LatheWrapper.notaus LatheData.default).handle_cmd LatheCommand.notaus).2 ≠
      LatheResponse.status "Notaus" := by
  decide

/-- C3 amended: from the states `Spinning` and `Feeding` (any business
data), the `Notaus` command yields `Status{"Notaus"}` and a wrapper in the
`Notaus` variant holding the same data. -/
theorem lathe_notaus_from_spinning_or_feeding (w : LatheWrapper)
    (h : w.tag = LatheState.spinning ∨ w.tag = LatheState.feeding) :
    w.handle_cmd LatheCommand.notaus =
      (LatheWrapper.notaus w.data, LatheResponse.status "Notaus") := by
  cases w with
  | off d => simp [LatheWrapper.tag] at h
  | spinning d => rfl
  | feeding d => rfl
  | notaus d => simp [LatheWrapper.tag] at h

/-- C3 witness: from `Spinning` with revs 800, `Notaus` yields
`Status{"Notaus"}` and the `Notaus` variant with the data kept. -/
theorem lathe_notaus_from_spinning_witness :
    ((LatheWrapper.spinning { revs := 800, feed := 0 }).tag = LatheState.spinning ∨
      (LatheWrapper.spinning { revs := 800, feed := 0 }).tag = LatheState.feeding) ∧
    (LatheWrapper.spinning { revs := 800, feed := 0 }).handle_cmd LatheCommand.notaus =
      (LatheWrapper.notaus { revs := 800, feed := 0 }, LatheResponse.status "Notaus") :=
  ⟨Or.inl rfl, lathe_notaus_from_spinning_or_feeding _ (Or.inl rfl)⟩

/-- C4 counterexample: in the generic worker loop `MachineThread::run`
(shared.rs line 295 discards the send result with a wildcard binding), with
the response consumer gone from the start (`alive = 0`) every response send
fails — nothing is delivered — yet the loop still processes the second
command after the first failed send, refuting the claim for the generic
engine. -/
theorem machineThreadRun_continues_after_send_failure :
    (machineThreadRun LatheWrapper.handle_cmd (LatheWrapper.new LatheData.default)
      [LatheCommand.notaus, LatheCommand.acknowledge] 0).2.1 = ([] : List LatheResponse) ∧
    (machineThreadRun LatheWrapper.handle_cmd (LatheWrapper.new LatheData.default)
      [LatheCommand.notaus, LatheCommand.acknowledge] 0).2.2 =
      [LatheCommand.notaus, LatheCommand.acknowledge] := by
  decide

/-- C4 amended: the mill worker loop (mill.rs lines 166-182) does break on
a failed response send: however many commands are queued and whenever the
shutdown signal arrives, it processes at most one command beyond the
`alive` sends the consumer accepts — so it never processes a further
command after a failed send. -/
theorem millThreadRun_stops_on_send_failure (m : MillFSM) (cmds : List MillCommand)
    (alive sIn : Nat) :
    ((millThreadRun m cmds alive sIn).2.2).length ≤ alive + 1 := by
  induction cmds generalizing m alive sIn with
  | nil => cases sIn <;> simp [millThreadRun]
  | cons c rest ih =>
      cases sIn with
      | zero => simp [millThreadRun]
      | succ s =>
          by_cases h : 0 < alive
          · simp only [millThreadRun, if_pos h, List.length_cons]
            have := ih (m.handle_command c).1 (alive - 1) s
            omega
          · simp [millThreadRun, if_neg h]

/-- C6: From `Notaus` with any business data, `Acknowledge` yields
`Status{"Off"}` and the `Off` variant holding the default data
(revs = 0 and feed = 0). -/
theorem lathe_acknowledge_resets (d : LatheData) :
    (LatheWrapper.notaus d).handle_cmd LatheCommand.acknowledge =
      (LatheWrapper.off LatheData.default, LatheResponse.status "Off") ∧
    LatheData.default.revs = 0 ∧ LatheData.default.feed = 0 :=
  ⟨rfl, rfl, rfl⟩

/-- C7: `check_responses` drains exactly the pending response queue in
order (so it returns the empty sequence, not an error, when nothing is
pending), and the worker publishes responses in exactly the order the
corresponding commands were submitted: with the consumer connected
throughout, the delivered sequence equals the in-order fold of `handle_cmd`
over the submitted commands — no reordering, no coalescing, no dropping. -/
theorem check_responses_drains_in_order :
    (∀ pending : List LatheResponse, MachineController.check_responses pending = pending) ∧
    MachineController.check_responses ([] : List LatheResponse) = [] ∧
    ∀ (w : LatheWrapper) (cmds : List LatheCommand),
      (machineThreadRun LatheWrapper.handle_cmd w cmds cmds.length).2.1 = (w.run cmds).2 :=
  ⟨fun pending => check_responses_eq pending, rfl,
    fun w cmds => machineThreadRun_delivers cmds w⟩

/-- C8: `send_command` is `self.cmd_tx.send(cmd)`: it succeeds exactly when
the command channel's receiving end — owned by the worker, dropped
precisely when the worker terminates — is still alive, and when the worker
is gone it fails with the command handed back, for no other reason. -/
theorem send_command_ok_iff_worker_alive {C : Type} (ch : MpscChannel C) (cmd : C) :
    ((∃ ch', MachineController.send_command ch cmd = Except.ok ch') ↔
      ch.receiverAlive = true) ∧
    (ch.receiverAlive = false →
      MachineController.send_command ch cmd = Except.error cmd) := by
  constructor
  · constructor
    · rintro ⟨ch', h⟩
      cases hr : ch.receiverAlive with
      | true => rfl
      | false => simp [MachineController.send_command, hr] at h
    · intro h
      refine ⟨{ ch with queued := ch.queued ++ [cmd] }, ?_⟩
      simp [MachineController.send_command, h]
  · intro h
    simp [MachineController.send_command, h]

/-- C8 witness: on a channel whose receiver is gone, sending `Notaus` fails
and returns the command. -/
theorem send_command_ok_iff_worker_alive_witness :
    ((⟨[], false⟩ : MpscChannel LatheCommand).receiverAlive = false) ∧
    MachineController.send_command (⟨[], false⟩ : MpscChannel LatheCommand)
      LatheCommand.notaus = Except.error LatheCommand.notaus :=
  ⟨rfl, (send_command_ok_iff_worker_alive (⟨[], false⟩ : MpscChannel LatheCommand)
    LatheCommand.notaus).2 rfl⟩

/-- C9: Two runs that each start from the freshly constructed machine (the
`Off` variant with default data) and fold `handle_cmd` over the same
command sequence produce identical response sequences and identical final
wrappers — the embedded semantics is a function of the command list alone. -/
theorem lathe_replay_deterministic (cmds : List LatheCommand)
    (r1 r2 : LatheWrapper × List LatheResponse)
    (h1 : r1 = (LatheWrapper.new LatheData.default).run cmds)
    (h2 : r2 = (LatheWrapper.new LatheData.default).run cmds) :
    r1.2 = r2.2 ∧ r1.1 = r2.1 := by
  subst h1
  subst h2
  exact ⟨rfl, rfl⟩

/-- C9 witness: replaying `[StartSpinning(1000), Feed(500)]` twice from the
fresh machine gives equal response lists and equal final wrappers. -/
theorem lathe_replay_deterministic_witness :
    (((LatheWrapper.new LatheData.default).run
        [LatheCommand.startSpinning 1000, LatheCommand.feed 500]).2 =
      ((LatheWrapper.new LatheData.default).run
        [LatheCommand.startSpinning 1000, LatheCommand.feed 500]).2) ∧
    ((LatheWrapper.new LatheData.default).run
        [LatheCommand.startSpinning 1000, LatheCommand.feed 500]).1 =
      ((LatheWrapper.new LatheData.default).run
        [LatheCommand.startSpinning 1000, LatheCommand.feed 500]).1 :=
  lathe_replay_deterministic [LatheCommand.startSpinning 1000, LatheCommand.feed 500]
    _ _ rfl rfl

/-- C10: Every wrapper reachable from the freshly constructed machine by
any command sequence satisfies the data invariant: the `Off` variant holds
revs = 0 and feed = 0, and the `Spinning` variant holds feed = 0. -/
theorem lathe_reachable_invariant (cmds : List LatheCommand) :
    latheInv (((LatheWrapper.new LatheData.default).run cmds).1) = true :=
  latheInv_run cmds _ rfl
